import Mathlib

/-!
# libnut `src/mouse.c`: a shallow embedding and its contract

`mouse.c` translates abstract pointer requests (move, drag, toggle, click,
double click, scroll, position query) into native calls of one of three
backends chosen by the preprocessor (`USE_X11`, `IS_MACOSX`, `IS_WINDOWS`).

The embedding keeps the C control flow and records every native call in a
trace.  The operating system is an explicit parameter `OS σ`: it says how
its state reacts to a call and how it answers the three kinds of query the C
code makes (pointer location, button state).  Resource management
(`CGEventSourceCreate`, `CFRelease`, `XGetMainDisplay`) carries no input and
is not recorded.

Machine integers are `Int` with explicit wrap-around where the C code
converts or can overflow.
-/

namespace Libnut

/-! ## Machine integers -/

/-- Smallest value of a C `int` (32 bits). -/
def INT_MIN : Int := -2147483648

/-- Largest value of a C `int` (32 bits). -/
def INT_MAX : Int := 2147483647

/-- Range predicate of a C `int`. -/
def isCInt (v : Int) : Prop := INT_MIN ≤ v ∧ v ≤ INT_MAX

instance (v : Int) : Decidable (isCInt v) := by
  unfold isCInt; infer_instance

/-- Two's-complement wrap-around of an `int` result to 32 bits. -/
def wrapInt (v : Int) : Int := (v + 2147483648) % 4294967296 - 2147483648

/-- Conversion to a 32-bit unsigned type (`unsigned int`, `DWORD`,
`CGMouseButton`). -/
def toUInt32 (v : Int) : Int := v % 4294967296

/-- Reading a 32-bit unsigned value back as a signed 32-bit quantity, as the
receiver of a wheel `mouseData` does. -/
def toSigned32 (v : Int) : Int := wrapInt v

/-- The libc function `abs` on `int`.  The negation is computed in `int`, so
`abs(INT_MIN)` wraps to `INT_MIN` (formally undefined in C; this is the result
on two's-complement targets). -/
def c_abs (x : Int) : Int := wrapInt (if x < 0 then -x else x)

/-! ## Data model -/

/-- The point type of the project: two integer pixel coordinates. -/
structure MMPoint where
  x : Int
  y : Int
deriving DecidableEq, Repr

/-- Native point of the macOS backend.  Its coordinates are `CGFloat`; the
embedding carries integral pixel values, for which the conversions to and
from `MMPoint` and the subtraction in `calculateDeltas` are exact. -/
structure CGPoint where
  x : Int
  y : Int
deriving DecidableEq, Repr

/-- Native point of the Windows backend. -/
structure POINT where
  x : Int
  y : Int
deriving DecidableEq, Repr

/-- The button enumeration is a C enum: any `int` value can be passed. -/
abbrev MMMouseButton := Int

/-- Modelled from the spec: the constants `LEFT_BUTTON` and `RIGHT_BUTTON` of
`mouse.h`, which is not among the sources.  The spec only says that the
encoding is a stable small integer, so the two values are parameters. -/
structure MouseHeader where
  LEFT_BUTTON : MMMouseButton
  RIGHT_BUTTON : MMMouseButton
deriving DecidableEq, Repr

/-- The three mutually exclusive build configurations. -/
inductive Backend where
  | USE_X11
  | IS_MACOSX
  | IS_WINDOWS
deriving DecidableEq, Repr

/-- Event types of the macOS backend used by `mouse.c`. -/
inductive CGEventType where
  | kCGEventLeftMouseDown
  | kCGEventLeftMouseUp
  | kCGEventRightMouseDown
  | kCGEventRightMouseUp
  | kCGEventMouseMoved
  | kCGEventLeftMouseDragged
  | kCGEventRightMouseDragged
  | kCGEventOtherMouseDown
  | kCGEventOtherMouseUp
  | kCGEventOtherMouseDragged
deriving DecidableEq, Repr

/-- Native button number of the left button on macOS. -/
def kCGMouseButtonLeft : Int := 0

/-- Native button number of the right button on macOS. -/
def kCGMouseButtonRight : Int := 1

/-- Native button number of the centre button on macOS. -/
def kCGMouseButtonCenter : Int := 2

/-- Integer fields of a macOS mouse event that `mouse.c` writes. -/
inductive CGEventField where
  | kCGMouseEventClickState
  | kCGMouseEventDeltaX
  | kCGMouseEventDeltaY
deriving DecidableEq, Repr

/-- A macOS mouse event.  The three optional fields are `none` until the code
sets them with `CGEventSetIntegerValueField`. -/
structure CGMouseEvent where
  eventType : CGEventType
  mouseCursorPosition : CGPoint
  mouseButton : Int
  clickState : Option Int
  deltaX : Option Int
  deltaY : Option Int
deriving DecidableEq, Repr

/-- Scroll units of the macOS backend. -/
inductive CGScrollEventUnit where
  | kCGScrollEventUnitPixel
  | kCGScrollEventUnitLine
deriving DecidableEq, Repr

/-- An event handed to `CGEventPost`: a mouse event or a scroll-wheel event
(`wheel1` is the vertical axis, `wheel2` the horizontal one). -/
inductive CGEvent where
  | mouse (e : CGMouseEvent)
  | scrollWheel (units : CGScrollEventUnit) (wheelCount : Nat) (wheel1 wheel2 : Int)
deriving DecidableEq, Repr

/-- Flags of a Windows mouse input used by `mouse.c`. -/
inductive MOUSEEVENTF where
  | LEFTDOWN
  | LEFTUP
  | RIGHTDOWN
  | RIGHTUP
  | MIDDLEDOWN
  | MIDDLEUP
  | WHEEL
  | HWHEEL
deriving DecidableEq, Repr

/-- The `mi` member of a Windows `INPUT` of type `INPUT_MOUSE`.  `mouseData`
is a `DWORD`; `dwExtraInfo` is `none` where the code leaves it unset. -/
structure MOUSEINPUT where
  dx : Int
  dy : Int
  mouseData : Int
  dwFlags : MOUSEEVENTF
  time : Int
  dwExtraInfo : Option Int
deriving DecidableEq, Repr

/-- One call made by `mouse.c` to the operating system or to the sleep
utility. -/
inductive NativeCall where
  | XWarpPointer (dest_x dest_y : Int)
  | XSync (discard : Bool)
  | XTestFakeButtonEvent (button : Int) (is_press : Bool)
  | XQueryPointer
  | CGEventPost (event : CGEvent)
  | CGEventGetLocation
  | CGEventSourceButtonState (button : Int)
  | SetCursorPos (x y : Int)
  | GetCursorPos
  | SendInput (mi : MOUSEINPUT)
  | microsleep (milliseconds : Int)
deriving DecidableEq, Repr

/-! ## The operating system as a parameter -/

/-- The operating system seen by `mouse.c`: how its state reacts to a call,
where the pointer is, and whether a native button is held. -/
structure OS (σ : Type) where
  react : NativeCall → σ → σ
  pointer : σ → Int × Int
  buttonState : Int → σ → Bool

/-- Result of running an operation: returned value, final OS state and the
native calls made, in order. -/
structure Outcome (σ α : Type) where
  val : α
  state : σ
  trace : List NativeCall

/-- An operation of `mouse.c` run from an OS state. -/
def Native (σ α : Type) : Type := σ → Outcome σ α

instance {σ : Type} : Monad (Native σ) where
  pure a := fun s => ⟨a, s, []⟩
  bind m f := fun s =>
    let r := m s
    let r2 := f r.val r.state
    ⟨r2.val, r2.state, r.trace ++ r2.trace⟩

/-- A native call without a result. -/
def nativeCall {σ : Type} (os : OS σ) (c : NativeCall) : Native σ Unit :=
  fun s => ⟨(), os.react c s, [c]⟩

/-- A native call whose result is read from the OS state at the time of the
call. -/
def nativeQuery {σ α : Type} (os : OS σ) (c : NativeCall) (answer : σ → α) : Native σ α :=
  fun s => ⟨answer s, os.react c s, [c]⟩

/-! ## Conversion macros of the missing headers -/

/-- The macro `CGPointMake`. -/
def CGPointMake (x y : Int) : CGPoint := ⟨x, y⟩

/-- Modelled from the spec: the macro `MMPointMake` of the geometry header,
which is not among the sources; a point is its two coordinates. -/
def MMPointMake (x y : Int) : MMPoint := ⟨x, y⟩

/-- Modelled from the spec: the macro `CGPointFromMMPoint` of the geometry
header, which is not among the sources; coordinates are carried over. -/
def CGPointFromMMPoint (p : MMPoint) : CGPoint := CGPointMake p.x p.y

/-- Modelled from the spec: the macro `MMPointFromCGPoint` of the geometry
header, which is not among the sources; coordinates are carried over. -/
def MMPointFromCGPoint (p : CGPoint) : MMPoint := MMPointMake p.x p.y

/-- Modelled from the spec: the macro `MMPointFromPOINT` of the geometry
header, which is not among the sources; coordinates are carried over. -/
def MMPointFromPOINT (p : POINT) : MMPoint := MMPointMake p.x p.y

/-! ## The macros of `mouse.c` -/

/-- The macro `MMMouseDownToCGEventType`. -/
def MMMouseDownToCGEventType (hdr : MouseHeader) (button : MMMouseButton) : CGEventType :=
  if button = hdr.LEFT_BUTTON then .kCGEventLeftMouseDown
  else if button = hdr.RIGHT_BUTTON then .kCGEventRightMouseDown
  else .kCGEventOtherMouseDown

/-- The macro `MMMouseUpToCGEventType`. -/
def MMMouseUpToCGEventType (hdr : MouseHeader) (button : MMMouseButton) : CGEventType :=
  if button = hdr.LEFT_BUTTON then .kCGEventLeftMouseUp
  else if button = hdr.RIGHT_BUTTON then .kCGEventRightMouseUp
  else .kCGEventOtherMouseUp

/-- The macro `MMMouseToCGEventType`. -/
def MMMouseToCGEventType (hdr : MouseHeader) (down : Bool) (button : MMMouseButton) :
    CGEventType :=
  if down then MMMouseDownToCGEventType hdr button else MMMouseUpToCGEventType hdr button

/-- The macro `MMMouseDragToCGEventType`. -/
def MMMouseDragToCGEventType (hdr : MouseHeader) (button : MMMouseButton) : CGEventType :=
  if button = hdr.LEFT_BUTTON then .kCGEventLeftMouseDragged
  else if button = hdr.RIGHT_BUTTON then .kCGEventRightMouseDragged
  else .kCGEventOtherMouseDragged

/-- The macro `MMMouseUpToMEventF`. -/
def MMMouseUpToMEventF (hdr : MouseHeader) (button : MMMouseButton) : MOUSEEVENTF :=
  if button = hdr.LEFT_BUTTON then .LEFTUP
  else if button = hdr.RIGHT_BUTTON then .RIGHTUP
  else .MIDDLEUP

/-- The macro `MMMouseDownToMEventF`. -/
def MMMouseDownToMEventF (hdr : MouseHeader) (button : MMMouseButton) : MOUSEEVENTF :=
  if button = hdr.LEFT_BUTTON then .LEFTDOWN
  else if button = hdr.RIGHT_BUTTON then .RIGHTDOWN
  else .MIDDLEDOWN

/-- The macro `MMMouseToMEventF`. -/
def MMMouseToMEventF (hdr : MouseHeader) (down : Bool) (button : MMMouseButton) : MOUSEEVENTF :=
  if down then MMMouseDownToMEventF hdr button else MMMouseUpToMEventF hdr button

/-! ## Native primitives -/

/-- The constructor `CGEventCreateMouseEvent`: no optional field is set. -/
def CGEventCreateMouseEvent (mouseType : CGEventType) (position : CGPoint) (button : Int) :
    CGMouseEvent :=
  { eventType := mouseType, mouseCursorPosition := position, mouseButton := button,
    clickState := none, deltaX := none, deltaY := none }

/-- The setter `CGEventSetIntegerValueField` on the fields `mouse.c` writes. -/
def CGEventSetIntegerValueField (event : CGMouseEvent) (field : CGEventField) (value : Int) :
    CGMouseEvent :=
  match field with
  | .kCGMouseEventClickState => { event with clickState := some value }
  | .kCGMouseEventDeltaX => { event with deltaX := some value }
  | .kCGMouseEventDeltaY => { event with deltaY := some value }

/-- The setter `CGEventSetType`. -/
def CGEventSetType (event : CGMouseEvent) (t : CGEventType) : CGMouseEvent :=
  { event with eventType := t }

/-- Pointer location query of macOS (`CGEventCreate` then
`CGEventGetLocation`). -/
def CGEventGetLocation {σ : Type} (os : OS σ) : Native σ CGPoint :=
  nativeQuery os .CGEventGetLocation (fun s => ⟨(os.pointer s).1, (os.pointer s).2⟩)

/-- Pointer location query of X11: the root-window coordinates returned by
`XQueryPointer`. -/
def XQueryPointer {σ : Type} (os : OS σ) : Native σ (Int × Int) :=
  nativeQuery os .XQueryPointer (fun s => os.pointer s)

/-- Pointer location query of Windows. -/
def GetCursorPos {σ : Type} (os : OS σ) : Native σ POINT :=
  nativeQuery os .GetCursorPos (fun s => ⟨(os.pointer s).1, (os.pointer s).2⟩)

/-- Button state query of macOS. -/
def CGEventSourceButtonState {σ : Type} (os : OS σ) (button : Int) : Native σ Bool :=
  nativeQuery os (.CGEventSourceButtonState button) (fun s => os.buttonState button s)

/-- The call `XTestFakeButtonEvent`; its button parameter is an
`unsigned int`. -/
def XTestFakeButtonEvent {σ : Type} (os : OS σ) (button : Int) (is_press : Bool) :
    Native σ Unit :=
  nativeCall os (.XTestFakeButtonEvent (toUInt32 button) is_press)

/-! ## The functions of `mouse.c` -/

/-- The function `calculateDeltas` (macOS only): reads the pointer location
and writes both delta fields of the event. -/
def calculateDeltas {σ : Type} (os : OS σ) (event : CGMouseEvent) (point : MMPoint) :
    Native σ CGMouseEvent := do
  let mouse ← CGEventGetLocation os
  let deltaX := point.x - mouse.x
  let deltaY := point.y - mouse.y
  let event := CGEventSetIntegerValueField event .kCGMouseEventDeltaX deltaX
  let event := CGEventSetIntegerValueField event .kCGMouseEventDeltaY deltaY
  pure event

/-- The function `moveMouse`. -/
def moveMouse {σ : Type} (b : Backend) (os : OS σ) (point : MMPoint) : Native σ Unit :=
  match b with
  | .USE_X11 => do
    nativeCall os (.XWarpPointer point.x point.y)
    nativeCall os (.XSync false)
  | .IS_MACOSX => do
    let position := CGPointMake point.x point.y
    let left ← CGEventSourceButtonState os kCGMouseButtonLeft
    let evt ←
      if left then
        pure (CGEventCreateMouseEvent .kCGEventLeftMouseDragged position kCGMouseButtonLeft)
      else do
        let right ← CGEventSourceButtonState os kCGMouseButtonRight
        if right then
          pure (CGEventCreateMouseEvent .kCGEventRightMouseDragged position kCGMouseButtonLeft)
        else
          pure (CGEventCreateMouseEvent .kCGEventMouseMoved position kCGMouseButtonLeft)
    nativeCall os (.CGEventPost (.mouse evt))
  | .IS_WINDOWS =>
    nativeCall os (.SetCursorPos point.x point.y)

/-- The function `dragMouse`. -/
def dragMouse {σ : Type} (b : Backend) (hdr : MouseHeader) (os : OS σ) (point : MMPoint)
    (button : MMMouseButton) : Native σ Unit :=
  match b with
  | .IS_MACOSX => do
    let dragType := MMMouseDragToCGEventType hdr button
    let drag := CGEventCreateMouseEvent dragType (CGPointFromMMPoint point) (toUInt32 button)
    let drag ← calculateDeltas os drag point
    nativeCall os (.CGEventPost (.mouse drag))
  | _ => moveMouse b os point

/-- The function `getMousePos`. -/
def getMousePos {σ : Type} (b : Backend) (os : OS σ) : Native σ MMPoint :=
  match b with
  | .IS_MACOSX => do
    let point ← CGEventGetLocation os
    pure (MMPointFromCGPoint point)
  | .USE_X11 => do
    let xy ← XQueryPointer os
    pure (MMPointMake xy.1 xy.2)
  | .IS_WINDOWS => do
    let point ← GetCursorPos os
    pure (MMPointFromPOINT point)

/-- The function `toggleMouse`. -/
def toggleMouse {σ : Type} (b : Backend) (hdr : MouseHeader) (os : OS σ) (down : Bool)
    (button : MMMouseButton) : Native σ Unit :=
  match b with
  | .IS_MACOSX => do
    let currentPos := CGPointFromMMPoint (← getMousePos .IS_MACOSX os)
    let mouseType := MMMouseToCGEventType hdr down button
    let event := CGEventCreateMouseEvent mouseType currentPos (toUInt32 button)
    nativeCall os (.CGEventPost (.mouse event))
  | .USE_X11 => do
    XTestFakeButtonEvent os button (if down then true else false)
    nativeCall os (.XSync false)
  | .IS_WINDOWS =>
    nativeCall os (.SendInput
      { dx := 0, dy := 0, mouseData := 0, dwFlags := MMMouseToMEventF hdr down button,
        time := 0, dwExtraInfo := none })

/-- The function `clickMouse`. -/
def clickMouse {σ : Type} (b : Backend) (hdr : MouseHeader) (os : OS σ)
    (button : MMMouseButton) : Native σ Unit := do
  toggleMouse b hdr os true button
  toggleMouse b hdr os false button

/-- The function `doubleClick`. -/
def doubleClick {σ : Type} (b : Backend) (hdr : MouseHeader) (os : OS σ)
    (button : MMMouseButton) : Native σ Unit :=
  match b with
  | .IS_MACOSX => do
    let currentPos := CGPointFromMMPoint (← getMousePos .IS_MACOSX os)
    let mouseTypeDown := MMMouseToCGEventType hdr true button
    let mouseTypeUP := MMMouseToCGEventType hdr false button
    let event := CGEventCreateMouseEvent mouseTypeDown currentPos kCGMouseButtonLeft
    let event := CGEventSetIntegerValueField event .kCGMouseEventClickState 2
    nativeCall os (.CGEventPost (.mouse event))
    let event := CGEventSetType event mouseTypeUP
    nativeCall os (.CGEventPost (.mouse event))
  | _ => do
    clickMouse b hdr os button
    nativeCall os (.microsleep 200)
    clickMouse b hdr os button

/-- One of the two `for` loops of the X11 branch of `scrollMouse`, entered
with counter `i` and bound `bound` (the value `abs` returned): a press and a
release of button `dir` per iteration.  The counter stays below `bound`, so
`i + 1` never overflows. -/
def scrollLoop {σ : Type} (os : OS σ) (dir : Int) (bound : Int) (i : Int) : Native σ Unit :=
  if i < bound then do
    XTestFakeButtonEvent os dir true
    XTestFakeButtonEvent os dir false
    scrollLoop os dir bound (i + 1)
  else
    pure ()
termination_by (bound - i).toNat
decreasing_by omega

/-- The function `scrollMouse`.  (The macOS branch is selected by `__APPLE__`,
the other two by `USE_X11` and `IS_WINDOWS`.) -/
def scrollMouse {σ : Type} (b : Backend) (os : OS σ) (x y : Int) : Native σ Unit :=
  match b with
  | .IS_MACOSX =>
    nativeCall os (.CGEventPost (.scrollWheel .kCGScrollEventUnitPixel 2 y x))
  | .USE_X11 => do
    let ydir : Int := if y < 0 then 5 else 4
    let xdir : Int := if x < 0 then 7 else 6
    scrollLoop os xdir (c_abs x) 0
    scrollLoop os ydir (c_abs y) 0
    nativeCall os (.XSync false)
  | .IS_WINDOWS => do
    let mouseScrollInputH : MOUSEINPUT :=
      { dx := 0, dy := 0, dwFlags := .HWHEEL, time := 0, dwExtraInfo := some 0,
        mouseData := toUInt32 (wrapInt (-x)) }
    let mouseScrollInputV : MOUSEINPUT :=
      { dx := 0, dy := 0, dwFlags := .WHEEL, time := 0, dwExtraInfo := some 0,
        mouseData := toUInt32 y }
    nativeCall os (.SendInput mouseScrollInputH)
    nativeCall os (.SendInput mouseScrollInputV)

/-! ## Observations on traces -/

/-- Whether a native call submits an input event to the OS (as opposed to a
pointer warp, a query, a synchronisation or a sleep). -/
def isInputEvent : NativeCall → Bool
  | .CGEventPost _ => true
  | .XTestFakeButtonEvent _ _ => true
  | .SendInput _ => true
  | _ => false

/-- The input events of a trace, in order. -/
def inputEvents (t : List NativeCall) : List NativeCall := t.filter isInputEvent

/-- The sleeps of a trace, in order. -/
def sleeps (t : List NativeCall) : List NativeCall :=
  t.filter (fun c => match c with
    | .microsleep _ => true
    | _ => false)

/-- A press and a release of X11 button `button`, `n` times over. -/
def pressReleasePairs (button : Int) : Nat → List NativeCall
  | 0 => []
  | n + 1 =>
    .XTestFakeButtonEvent button true :: .XTestFakeButtonEvent button false ::
      pressReleasePairs button n

/-- The event type `moveMouse` selects on macOS from the answers to its
button-state queries: the right button is only asked about when the left one
is reported up, in the state the first query leaves. -/
def moveEventType {σ : Type} (os : OS σ) (s : σ) : CGEventType :=
  if os.buttonState kCGMouseButtonLeft s then .kCGEventLeftMouseDragged
  else if os.buttonState kCGMouseButtonRight
      (os.react (.CGEventSourceButtonState kCGMouseButtonLeft) s) then
    .kCGEventRightMouseDragged
  else .kCGEventMouseMoved

/-- Number of the middle button in the X11 numbering that `mouse.c` documents
in `scrollMouse` (1 left, 2 middle, 3 right, 4 to 7 the wheel, 8 and 9 the
browser buttons). -/
def X11_MIDDLE_BUTTON : Int := 2

/-! ## The fake backend -/

/-- State of the fake backend: the pointer location and which of the left and
right buttons is held. -/
structure FakeState where
  cursor : Int × Int
  leftDown : Bool
  rightDown : Bool
deriving DecidableEq, Repr

/-- How a posted macOS mouse event changes the held buttons of the fake. -/
def fakeButtons (t : CGEventType) (s : FakeState) : Bool × Bool :=
  match t with
  | .kCGEventLeftMouseDown => (true, s.rightDown)
  | .kCGEventLeftMouseUp => (false, s.rightDown)
  | .kCGEventRightMouseDown => (s.leftDown, true)
  | .kCGEventRightMouseUp => (s.leftDown, false)
  | _ => (s.leftDown, s.rightDown)

/-- Modelled from the spec: the in-memory fake of the OS input boundary that
the spec prescribes for tests (it holds the current position and button state
and is mutated only through the native-call surface).  A pointer warp, a
cursor placement and a posted mouse event put the pointer at the position they
carry; queries, synchronisation, sleeps and scroll events leave the state
alone.  Only the macOS path ever asks for the button state, so only its
button events update it. -/
def fakeOS : OS FakeState where
  react c s :=
    match c with
    | .XWarpPointer x y => { s with cursor := (x, y) }
    | .SetCursorPos x y => { s with cursor := (x, y) }
    | .CGEventPost (.mouse e) =>
      { cursor := (e.mouseCursorPosition.x, e.mouseCursorPosition.y),
        leftDown := (fakeButtons e.eventType s).1,
        rightDown := (fakeButtons e.eventType s).2 }
    | _ => s
  pointer s := s.cursor
  buttonState button s :=
    if button = kCGMouseButtonLeft then s.leftDown
    else if button = kCGMouseButtonRight then s.rightDown
    else false

/-! ## Running operations: basic equations -/

theorem bind_run {σ α β : Type} (m : Native σ α) (f : α → Native σ β) (s : σ) :
    (m >>= f) s =
      ⟨(f (m s).val (m s).state).val, (f (m s).val (m s).state).state,
        (m s).trace ++ (f (m s).val (m s).state).trace⟩ := rfl

theorem pure_run {σ α : Type} (a : α) (s : σ) :
    (pure a : Native σ α) s = ⟨a, s, []⟩ := rfl

theorem nativeCall_run {σ : Type} (os : OS σ) (c : NativeCall) (s : σ) :
    nativeCall os c s = ⟨(), os.react c s, [c]⟩ := rfl

theorem nativeQuery_run {σ α : Type} (os : OS σ) (c : NativeCall) (answer : σ → α) (s : σ) :
    nativeQuery os c answer s = ⟨answer s, os.react c s, [c]⟩ := rfl

/-! ## Click and double click -/

/-- C2: on every backend and for every button, `clickMouse` is `toggleMouse`
with `true` followed by `toggleMouse` with `false`, run from the state the
first one leaves; its trace is the concatenation of the two traces and its
final state is the state after the second, with nothing in between. -/
theorem clickMouse_is_toggle_down_then_up {σ : Type} (b : Backend) (hdr : MouseHeader)
    (os : OS σ) (button : MMMouseButton) (s : σ) :
    (clickMouse b hdr os button s).trace =
        (toggleMouse b hdr os true button s).trace ++
          (toggleMouse b hdr os false button (toggleMouse b hdr os true button s).state).trace
      ∧ (clickMouse b hdr os button s).state =
        (toggleMouse b hdr os false button (toggleMouse b hdr os true button s).state).state
      ∧ sleeps (clickMouse b hdr os button s).trace = [] := by
  refine ⟨rfl, rfl, ?_⟩
  cases b <;> rfl

/-- C3: on the two backends other than macOS, `doubleClick` is `clickMouse`,
one `microsleep` with argument 200, and `clickMouse` again; written out, its
trace is down, up, sleep(200), down, up for the given button (each X11 toggle
being the button event with its `XSync`). -/
theorem doubleClick_degraded_is_click_sleep200_click {σ : Type} (hdr : MouseHeader)
    (os : OS σ) (button : MMMouseButton) (s : σ) :
    ((doubleClick .USE_X11 hdr os button s).trace =
        (clickMouse .USE_X11 hdr os button s).trace ++ [.microsleep 200] ++
          (clickMouse .USE_X11 hdr os button
            (os.react (.microsleep 200) (clickMouse .USE_X11 hdr os button s).state)).trace
      ∧ (doubleClick .USE_X11 hdr os button s).trace =
        [.XTestFakeButtonEvent (toUInt32 button) true, .XSync false,
         .XTestFakeButtonEvent (toUInt32 button) false, .XSync false,
         .microsleep 200,
         .XTestFakeButtonEvent (toUInt32 button) true, .XSync false,
         .XTestFakeButtonEvent (toUInt32 button) false, .XSync false])
    ∧ ((doubleClick .IS_WINDOWS hdr os button s).trace =
        (clickMouse .IS_WINDOWS hdr os button s).trace ++ [.microsleep 200] ++
          (clickMouse .IS_WINDOWS hdr os button
            (os.react (.microsleep 200) (clickMouse .IS_WINDOWS hdr os button s).state)).trace
      ∧ (doubleClick .IS_WINDOWS hdr os button s).trace =
        [.SendInput { dx := 0, dy := 0, mouseData := 0,
                      dwFlags := MMMouseDownToMEventF hdr button, time := 0,
                      dwExtraInfo := none },
         .SendInput { dx := 0, dy := 0, mouseData := 0,
                      dwFlags := MMMouseUpToMEventF hdr button, time := 0,
                      dwExtraInfo := none },
         .microsleep 200,
         .SendInput { dx := 0, dy := 0, mouseData := 0,
                      dwFlags := MMMouseDownToMEventF hdr button, time := 0,
                      dwExtraInfo := none },
         .SendInput { dx := 0, dy := 0, mouseData := 0,
                      dwFlags := MMMouseUpToMEventF hdr button, time := 0,
                      dwExtraInfo := none }]) := by
  refine ⟨⟨?_, rfl⟩, ⟨?_, rfl⟩⟩
  · show _ = ((_ ++ _) ++ _)
    rw [List.append_assoc]
    rfl
  · show _ = ((_ ++ _) ++ _)
    rw [List.append_assoc]
    rfl

/-! ## Drag on macOS -/

/-- C7: on macOS, `moveMouse` to `p` posts exactly one event, at position `p`:
a left-button drag when the left button is reported down, a right-button drag
when the left is up and the right is down, and a mouse-moved event exactly
when neither is down. -/
theorem moveMouse_macos_posts_one_move_or_drag {σ : Type} (os : OS σ) (p : MMPoint)
    (s : σ) :
    inputEvents (moveMouse .IS_MACOSX os p s).trace =
      [.CGEventPost (.mouse
        { eventType := moveEventType os s,
          mouseCursorPosition := ⟨p.x, p.y⟩,
          mouseButton := kCGMouseButtonLeft,
          clickState := none, deltaX := none, deltaY := none })]
    ∧ (moveEventType os s = .kCGEventLeftMouseDragged ↔
        os.buttonState kCGMouseButtonLeft s = true)
    ∧ (moveEventType os s = .kCGEventRightMouseDragged ↔
        (os.buttonState kCGMouseButtonLeft s = false ∧
          os.buttonState kCGMouseButtonRight
            (os.react (.CGEventSourceButtonState kCGMouseButtonLeft) s) = true))
    ∧ (moveEventType os s = .kCGEventMouseMoved ↔
        (os.buttonState kCGMouseButtonLeft s = false ∧
          os.buttonState kCGMouseButtonRight
            (os.react (.CGEventSourceButtonState kCGMouseButtonLeft) s) = false)) := by
  refine ⟨?_, ?_, ?_, ?_⟩
  · simp only [moveMouse, moveEventType, bind_run, CGEventSourceButtonState, nativeQuery_run,
      nativeCall_run]
    cases hl : os.buttonState kCGMouseButtonLeft s
    · cases hr : os.buttonState kCGMouseButtonRight
          (os.react (.CGEventSourceButtonState kCGMouseButtonLeft) s) <;>
        simp [hr, bind_run, pure_run, nativeQuery_run, nativeCall_run, inputEvents,
          isInputEvent, CGEventCreateMouseEvent, CGPointMake]
    · simp [bind_run, pure_run, nativeCall_run, inputEvents, isInputEvent,
        CGEventCreateMouseEvent, CGPointMake]
  · unfold moveEventType
    cases os.buttonState kCGMouseButtonLeft s <;>
      cases os.buttonState kCGMouseButtonRight
        (os.react (.CGEventSourceButtonState kCGMouseButtonLeft) s) <;> simp
  · unfold moveEventType
    cases os.buttonState kCGMouseButtonLeft s <;>
      cases os.buttonState kCGMouseButtonRight
        (os.react (.CGEventSourceButtonState kCGMouseButtonLeft) s) <;> simp
  · unfold moveEventType
    cases os.buttonState kCGMouseButtonLeft s <;>
      cases os.buttonState kCGMouseButtonRight
        (os.react (.CGEventSourceButtonState kCGMouseButtonLeft) s) <;> simp

/-! ## Position round trip on the fake backend -/

/-- C5: on the fake backend and on each of the three build configurations,
`getMousePos` right after `moveMouse p` returns `p`, `getMousePos` right after
`dragMouse p button` returns `p`, and `getMousePos` leaves the state as it
found it, from every prior state. -/
theorem getMousePos_after_move_or_drag_on_fake (b : Backend) (hdr : MouseHeader)
    (p : MMPoint) (button : MMMouseButton) (s : FakeState) :
    (getMousePos b fakeOS (moveMouse b fakeOS p s).state).val = p
    ∧ (getMousePos b fakeOS (dragMouse b hdr fakeOS p button s).state).val = p
    ∧ (getMousePos b fakeOS s).state = s := by
  obtain ⟨c, l, r⟩ := s
  cases b
  · exact ⟨rfl, rfl, rfl⟩
  · refine ⟨?_, rfl, rfl⟩
    cases l <;> cases r <;> rfl
  · exact ⟨rfl, rfl, rfl⟩

/-! ## Scrolling with a native wheel event -/

/-- C6, as amended: `scrollMouse(0, 0)` posts exactly one event on macOS, a
scroll-wheel event whose vertical and horizontal fields are both zero, and
exactly two events on Windows, a horizontal-wheel input and then a
vertical-wheel input, each with magnitude zero. -/
theorem scrollMouse_zero_native_events {σ : Type} (os : OS σ) (s : σ) :
    (scrollMouse .IS_MACOSX os 0 0 s).trace =
      [.CGEventPost (.scrollWheel .kCGScrollEventUnitPixel 2 0 0)]
    ∧ (scrollMouse .IS_WINDOWS os 0 0 s).trace =
      [.SendInput { dx := 0, dy := 0, mouseData := 0, dwFlags := .HWHEEL, time := 0,
                    dwExtraInfo := some 0 },
       .SendInput { dx := 0, dy := 0, mouseData := 0, dwFlags := .WHEEL, time := 0,
                    dwExtraInfo := some 0 }] := by
  exact ⟨rfl, rfl⟩

/-- C6, counterexample: on Windows `scrollMouse(0, 0)` submits two input
events, not one. -/
theorem scrollMouse_windows_zero_posts_two_events :
    (inputEvents (scrollMouse .IS_WINDOWS fakeOS 0 0 ⟨(0, 0), false, false⟩).trace).length = 2
    ∧ ¬ (inputEvents
          (scrollMouse .IS_WINDOWS fakeOS 0 0 ⟨(0, 0), false, false⟩).trace).length = 1 := by
  decide

/-- Storing the `int` value `-x` in a `DWORD` gives `(-x) mod 2^32`, also
where the negation wraps. -/
theorem toUInt32_wrapInt (v : Int) : toUInt32 (wrapInt v) = v % 4294967296 := by
  unfold toUInt32 wrapInt
  omega

/-- A C `int` stored in a 32-bit unsigned field is read back unchanged. -/
theorem toSigned32_toUInt32 (v : Int) (h : isCInt v) : toSigned32 (toUInt32 v) = v := by
  unfold isCInt INT_MIN INT_MAX at h
  unfold toSigned32 toUInt32 wrapInt
  omega

/-- C9: for C `int` values `x` and `y`, the macOS path posts one scroll event
with vertical field `y` and horizontal field `x`; the Windows path submits a
horizontal-wheel input whose `mouseData` is `(-x) mod 2^32` and a
vertical-wheel input whose `mouseData` is `y mod 2^32`, which read back as
signed values are `-x` (for `x` other than `INT_MIN`) and `y`. -/
theorem scrollMouse_native_magnitudes {σ : Type} (os : OS σ) (x y : Int) (s : σ)
    (hx : isCInt x) (hy : isCInt y) :
    (scrollMouse .IS_MACOSX os x y s).trace =
      [.CGEventPost (.scrollWheel .kCGScrollEventUnitPixel 2 y x)]
    ∧ (scrollMouse .IS_WINDOWS os x y s).trace =
      [.SendInput { dx := 0, dy := 0, mouseData := (-x) % 4294967296, dwFlags := .HWHEEL,
                    time := 0, dwExtraInfo := some 0 },
       .SendInput { dx := 0, dy := 0, mouseData := y % 4294967296, dwFlags := .WHEEL,
                    time := 0, dwExtraInfo := some 0 }]
    ∧ toSigned32 (y % 4294967296) = y
    ∧ (x = INT_MIN ∨ toSigned32 ((-x) % 4294967296) = -x) := by
  refine ⟨rfl, ?_, toSigned32_toUInt32 y hy, ?_⟩
  · show [NativeCall.SendInput _, NativeCall.SendInput _] = _
    rw [toUInt32_wrapInt]
    rfl
  · by_cases h : x = INT_MIN
    · exact Or.inl h
    · right
      apply toSigned32_toUInt32
      unfold isCInt INT_MIN INT_MAX at *
      omega

/-- C9, witness: the statement at `x = -3`, `y = 5`. -/
theorem scrollMouse_native_magnitudes_witness :
    isCInt (-3) ∧ isCInt 5 ∧
    ((scrollMouse .IS_MACOSX fakeOS (-3) 5 ⟨(0, 0), false, false⟩).trace =
      [.CGEventPost (.scrollWheel .kCGScrollEventUnitPixel 2 5 (-3))]
    ∧ (scrollMouse .IS_WINDOWS fakeOS (-3) 5 ⟨(0, 0), false, false⟩).trace =
      [.SendInput { dx := 0, dy := 0, mouseData := (-(-3)) % 4294967296, dwFlags := .HWHEEL,
                    time := 0, dwExtraInfo := some 0 },
       .SendInput { dx := 0, dy := 0, mouseData := 5 % 4294967296, dwFlags := .WHEEL,
                    time := 0, dwExtraInfo := some 0 }]
    ∧ toSigned32 (5 % 4294967296) = 5
    ∧ ((-3 : Int) = INT_MIN ∨ toSigned32 ((-(-3)) % 4294967296) = -(-3))) :=
  ⟨by decide, by decide,
    scrollMouse_native_magnitudes fakeOS (-3) 5 ⟨(0, 0), false, false⟩ (by decide) (by decide)⟩

/-! ## Scrolling on X11 -/

/-- Trace of one scroll loop: as many press and release pairs as there are
counter values from `i` up to the bound. -/
theorem scrollLoop_trace {σ : Type} (os : OS σ) (dir bound : Int) (n : Nat) :
    ∀ (i : Int) (s : σ), (bound - i).toNat = n →
      (scrollLoop os dir bound i s).trace = pressReleasePairs (toUInt32 dir) n := by
  induction n with
  | zero =>
    intro i s h
    have hlt : ¬ i < bound := by omega
    rw [scrollLoop, if_neg hlt]
    rfl
  | succ k ih =>
    intro i s h
    have hlt : i < bound := by omega
    rw [scrollLoop, if_pos hlt]
    simp only [bind_run, XTestFakeButtonEvent, nativeCall_run, pressReleasePairs,
      List.singleton_append, List.cons.injEq, true_and]
    apply ih
    omega

/-- Trace of the X11 branch of `scrollMouse` in terms of the values `abs`
returns. -/
theorem scrollMouse_x11_trace {σ : Type} (os : OS σ) (x y : Int) (s : σ) :
    (scrollMouse .USE_X11 os x y s).trace =
      pressReleasePairs (if x < 0 then 7 else 6) (c_abs x).toNat ++
        (pressReleasePairs (if y < 0 then 5 else 4) (c_abs y).toNat ++ [.XSync false]) := by
  simp only [scrollMouse, bind_run, nativeCall_run]
  rw [scrollLoop_trace os _ (c_abs x) (c_abs x).toNat 0 s (by simp),
    scrollLoop_trace os _ (c_abs y) (c_abs y).toNat 0 _ (by simp)]
  have h7 : toUInt32 (if x < 0 then 7 else 6) = if x < 0 then 7 else 6 := by
    split <;> rfl
  have h5 : toUInt32 (if y < 0 then 5 else 4) = if y < 0 then 5 else 4 := by
    split <;> rfl
  rw [h7, h5]

/-- On every C `int` other than `INT_MIN`, `abs` returns the magnitude. -/
theorem c_abs_eq_natAbs (x : Int) (h : isCInt x) (hmin : x ≠ INT_MIN) :
    (c_abs x).toNat = x.natAbs := by
  unfold isCInt INT_MIN INT_MAX at *
  unfold c_abs wrapInt
  split <;> omega

/-- Away from `INT_MIN` the X11 branch of `scrollMouse` issues `|x|` press and
release pairs on button 7 or 6, then `|y|` pairs on button 5 or 4, then one
`XSync`, and nothing else. -/
theorem scrollMouse_x11_pairs_then_sync {σ : Type} (os : OS σ) (x y : Int) (s : σ)
    (hx : isCInt x) (hy : isCInt y) (hxmin : x ≠ INT_MIN) (hymin : y ≠ INT_MIN) :
    (scrollMouse .USE_X11 os x y s).trace =
      pressReleasePairs (if x < 0 then 7 else 6) x.natAbs ++
        (pressReleasePairs (if y < 0 then 5 else 4) y.natAbs ++ [.XSync false]) := by
  rw [scrollMouse_x11_trace, c_abs_eq_natAbs x hx hxmin, c_abs_eq_natAbs y hy hymin]

/-- The statement of `scrollMouse_x11_pairs_then_sync` at `x = -2`, `y = 1`:
two pairs on button 7, one pair on button 4, one `XSync`. -/
theorem scrollMouse_x11_pairs_then_sync_example :
    (scrollMouse .USE_X11 fakeOS (-2) 1 ⟨(0, 0), false, false⟩).trace =
      [.XTestFakeButtonEvent 7 true, .XTestFakeButtonEvent 7 false,
       .XTestFakeButtonEvent 7 true, .XTestFakeButtonEvent 7 false,
       .XTestFakeButtonEvent 4 true, .XTestFakeButtonEvent 4 false,
       .XSync false] :=
  scrollMouse_x11_pairs_then_sync fakeOS (-2) 1 ⟨(0, 0), false, false⟩
    (by decide) (by decide) (by decide) (by decide)

/-- Whatever `int` the loop bound is, a scroll loop entered at counter 0
issues fewer than 2147483648 pairs: the count is the bound when that is
positive and zero otherwise. -/
theorem scrollLoop_pairs_below_two_pow_31 {σ : Type} (os : OS σ) (dir bound : Int) (s : σ)
    (h : isCInt bound) :
    (scrollLoop os dir bound 0 s).trace = pressReleasePairs (toUInt32 dir) bound.toNat
    ∧ bound.toNat < 2147483648 := by
  refine ⟨scrollLoop_trace os dir bound bound.toNat 0 s (by simp), ?_⟩
  unfold isCInt INT_MIN INT_MAX at h
  omega

/-- C1, at the failing input: `scrollMouse(INT_MIN, 0)` on X11, where
`abs(INT_MIN)` is `INT_MIN`, issues no press or release at all, only the
`XSync`, although the magnitude of `INT_MIN` is 2147483648. -/
theorem scrollMouse_x11_int_min_issues_no_pair {σ : Type} (os : OS σ) (s : σ) :
    isCInt INT_MIN
    ∧ INT_MIN.natAbs = 2147483648
    ∧ (scrollMouse .USE_X11 os INT_MIN 0 s).trace = [.XSync false]
    ∧ (scrollMouse .USE_X11 os 0 INT_MIN s).trace = [.XSync false] := by
  refine ⟨by decide, by decide, ?_, ?_⟩
  · rw [scrollMouse_x11_trace]
    have h1 : (c_abs INT_MIN).toNat = 0 := by decide
    have h2 : (c_abs 0).toNat = 0 := by decide
    rw [h1, h2]
    rfl
  · rw [scrollMouse_x11_trace]
    have h1 : (c_abs INT_MIN).toNat = 0 := by decide
    have h2 : (c_abs 0).toNat = 0 := by decide
    rw [h1, h2]
    rfl

/-! ## Double click on macOS -/

/-- C8, at the failing input: on macOS `doubleClick` of the centre button
(native button 2) reads the pointer once and posts a down and an up event of
the types `toggleMouse` uses, at that position and with click count 2, but
both carry native button `kCGMouseButtonLeft`, where `toggleMouse` passes
button 2. -/
theorem doubleClick_macos_center_uses_left_button {σ : Type} (hdr : MouseHeader)
    (os : OS σ) (s : σ) :
    (doubleClick .IS_MACOSX hdr os kCGMouseButtonCenter s).trace =
      [.CGEventGetLocation,
       .CGEventPost (.mouse
         { eventType := MMMouseToCGEventType hdr true kCGMouseButtonCenter,
           mouseCursorPosition := ⟨(os.pointer s).1, (os.pointer s).2⟩,
           mouseButton := kCGMouseButtonLeft,
           clickState := some 2, deltaX := none, deltaY := none }),
       .CGEventPost (.mouse
         { eventType := MMMouseToCGEventType hdr false kCGMouseButtonCenter,
           mouseCursorPosition := ⟨(os.pointer s).1, (os.pointer s).2⟩,
           mouseButton := kCGMouseButtonLeft,
           clickState := some 2, deltaX := none, deltaY := none })]
    ∧ (toggleMouse .IS_MACOSX hdr os true kCGMouseButtonCenter s).trace =
      [.CGEventGetLocation,
       .CGEventPost (.mouse
         { eventType := MMMouseToCGEventType hdr true kCGMouseButtonCenter,
           mouseCursorPosition := ⟨(os.pointer s).1, (os.pointer s).2⟩,
           mouseButton := kCGMouseButtonCenter,
           clickState := none, deltaX := none, deltaY := none })]
    ∧ kCGMouseButtonLeft ≠ kCGMouseButtonCenter := by
  exact ⟨rfl, rfl, by decide⟩

/-! ## Toggling a button -/

/-- C10, as amended: on every backend `toggleMouse` issues exactly one input
event, fixed by its own arguments and (on macOS) the pointer location at the
time of the call, so two consecutive downs issue two down events and an up
without a prior down issues one up event; a button other than `LEFT_BUTTON`
and `RIGHT_BUTTON` selects the other-button event types on macOS and the
middle-button flags on Windows, while X11 passes the button number through
unchanged. -/
theorem toggleMouse_one_event_per_call {σ : Type} (b : Backend) (hdr : MouseHeader)
    (os : OS σ) (down : Bool) (button : MMMouseButton) (s : σ) :
    (toggleMouse .USE_X11 hdr os down button s).trace =
      [.XTestFakeButtonEvent (toUInt32 button) down, .XSync false]
    ∧ (toggleMouse .IS_MACOSX hdr os down button s).trace =
      [.CGEventGetLocation,
       .CGEventPost (.mouse
         { eventType := MMMouseToCGEventType hdr down button,
           mouseCursorPosition := ⟨(os.pointer s).1, (os.pointer s).2⟩,
           mouseButton := toUInt32 button,
           clickState := none, deltaX := none, deltaY := none })]
    ∧ (toggleMouse .IS_WINDOWS hdr os down button s).trace =
      [.SendInput { dx := 0, dy := 0, mouseData := 0,
                    dwFlags := MMMouseToMEventF hdr down button, time := 0,
                    dwExtraInfo := none }]
    ∧ (inputEvents (toggleMouse b hdr os down button s).trace).length = 1
    ∧ ((toggleMouse b hdr os true button >>= fun _ => toggleMouse b hdr os true button) s).trace =
        (toggleMouse b hdr os true button s).trace ++
          (toggleMouse b hdr os true button (toggleMouse b hdr os true button s).state).trace
    ∧ (inputEvents
        ((toggleMouse b hdr os true button >>= fun _ =>
          toggleMouse b hdr os true button) s).trace).length = 2
    ∧ (button = hdr.LEFT_BUTTON ∨ button = hdr.RIGHT_BUTTON ∨
        (MMMouseToCGEventType hdr true button = .kCGEventOtherMouseDown
          ∧ MMMouseToCGEventType hdr false button = .kCGEventOtherMouseUp
          ∧ MMMouseToMEventF hdr true button = .MIDDLEDOWN
          ∧ MMMouseToMEventF hdr false button = .MIDDLEUP)) := by
  refine ⟨?_, rfl, rfl, ?_, rfl, ?_, ?_⟩
  · cases down <;> rfl
  · cases b <;> rfl
  · cases b <;> rfl
  · by_cases hl : button = hdr.LEFT_BUTTON
    · exact Or.inl hl
    · by_cases hr : button = hdr.RIGHT_BUTTON
      · exact Or.inr (Or.inl hr)
      · refine Or.inr (Or.inr ?_)
        simp [MMMouseToCGEventType, MMMouseDownToCGEventType, MMMouseUpToCGEventType,
          MMMouseToMEventF, MMMouseDownToMEventF, MMMouseUpToMEventF, hl, hr]

/-- C10, counterexample: on X11 the button value 4, which is neither
`LEFT_BUTTON` nor `RIGHT_BUTTON` when the header gives them the values 1 and
3, is pressed as X11 button 4 (a turn of the scroll wheel), not as the middle
button; and no choice of header values makes every other button the middle
one. -/
theorem toggleMouse_x11_button_not_mapped_to_middle :
    inputEvents (toggleMouse .USE_X11 ⟨1, 3⟩ fakeOS true 4 ⟨(0, 0), false, false⟩).trace =
      [.XTestFakeButtonEvent 4 true]
    ∧ (4 : Int) ≠ X11_MIDDLE_BUTTON
    ∧ ¬ (∀ (hdr : MouseHeader) (button : MMMouseButton),
          button ≠ hdr.LEFT_BUTTON → button ≠ hdr.RIGHT_BUTTON →
          inputEvents
            (toggleMouse .USE_X11 hdr fakeOS true button ⟨(0, 0), false, false⟩).trace =
            [.XTestFakeButtonEvent X11_MIDDLE_BUTTON true]) := by
  refine ⟨by decide, by decide, ?_⟩
  intro h
  have h4 := h ⟨1, 3⟩ 4 (by decide) (by decide)
  revert h4
  decide

end Libnut
